import Mathlib

/-!
# Verification of the NDVI Viewer composite-query logic

Shallow embedding of `app.py` (a Streamlit dashboard over Google Earth
Engine).  Dates follow CPython's `datetime.date` proleptic-Gregorian
semantics; the remote image collection is a list of image metadata records,
and the filter / sort / branch logic of the script is transcribed directly.
-/

namespace NDVIViewer

/-! ## Calendar model (CPython `datetime.date` semantics) -/

/-- Gregorian leap-year test, as in Python's `calendar.isleap` which backs
`datetime.date` arithmetic. -/
def isLeap (y : Nat) : Bool :=
  (y % 4 == 0 && y % 100 != 0) || (y % 400 == 0)

/-- Days in month `m` of year `y` (`m` in `1..12`), as in CPython's
`_days_in_month`. -/
def daysInMonth (y : Nat) : Nat → Nat
  | 1 => 31
  | 2 => if isLeap y then 29 else 28
  | 3 => 31
  | 4 => 30
  | 5 => 31
  | 6 => 30
  | 7 => 31
  | 8 => 31
  | 9 => 30
  | 10 => 31
  | 11 => 30
  | 12 => 31
  | _ => 0

/-- Days in year `y` strictly before month `m`, as in CPython's
`_days_before_month`. -/
def daysBeforeMonth (y : Nat) : Nat → Nat
  | 0 => 0
  | 1 => 0
  | m + 2 => daysBeforeMonth y (m + 1) + daysInMonth y (m + 1)

/-- Days before January 1st of year `y`, as in CPython's `_days_before_year`
(`n*365 + n//4 - n//100 + n//400` with `n = y - 1`); the terms are reordered
so the truncated subtraction comes last, which does not change the value
because `n / 4 ≥ n / 100`. -/
def daysBeforeYear (y : Nat) : Nat :=
  365 * (y - 1) + (y - 1) / 4 + (y - 1) / 400 - (y - 1) / 100

/-- A calendar date as held by Python's `datetime.date`. -/
structure Date where
  year : Nat
  month : Nat
  day : Nat
deriving DecidableEq, Repr

/-- The date is a real proleptic-Gregorian date (CPython also caps the year
at 9999, which no claim depends on). -/
def ValidDate (d : Date) : Prop :=
  1 ≤ d.year ∧ 1 ≤ d.month ∧ d.month ≤ 12 ∧ 1 ≤ d.day ∧
    d.day ≤ daysInMonth d.year d.month

instance : DecidablePred ValidDate := fun d => by
  unfold ValidDate; exact inferInstance

/-- CPython's `date.toordinal`: day count with 0001-01-01 ↦ 1. -/
def toOrdinal (d : Date) : Nat :=
  daysBeforeYear d.year + daysBeforeMonth d.year d.month + d.day

/-- The previous calendar day, with month and year rollover. -/
def predDay (d : Date) : Date :=
  if 2 ≤ d.day then ⟨d.year, d.month, d.day - 1⟩
  else if 2 ≤ d.month then ⟨d.year, d.month - 1, daysInMonth d.year (d.month - 1)⟩
  else ⟨d.year - 1, 12, 31⟩

/-- Python's `d - timedelta(days=n)` goes through ordinals
(`fromordinal (toordinal d - n)`); it is modelled as `n` calendar
decrements, and `toOrdinal_subDays` below shows the two agree. -/
def subDays (n : Nat) (d : Date) : Date := predDay^[n] d

/-! ## The remote image collection and the script's filter chain -/

/-- A Sentinel-2 image in the remote catalog, abstracted to the metadata the
script reads: `system:time_start` (milliseconds since epoch),
`CLOUDY_PIXEL_PERCENTAGE`, and whether its footprint intersects the fixed
`akita` rectangle (a fact the service evaluates for `filterBounds`). -/
structure EEImage where
  ts : Int
  cloud : ℚ
  inBounds : Bool
deriving DecidableEq, Repr

/-- Line 53, `.filterBounds(akita)` : keep the images whose footprint
intersects the region. -/
def filterBounds (l : List EEImage) : List EEImage :=
  l.filter (·.inBounds)

/-- Line 54, `.filterDate(start, end)` : Earth Engine keeps images with
`start ≤ system:time_start < end` (start inclusive, end exclusive). -/
def filterDate (s e : Int) (l : List EEImage) : List EEImage :=
  l.filter (fun i => decide (s ≤ i.ts) && decide (i.ts < e))

/-- Line 55, the filter `ee.Filter.lt` on `CLOUDY_PIXEL_PERCENTAGE` :
strict upper bound on the per-image cloud percentage. -/
def filterCloudLt (t : ℚ) (l : List EEImage) : List EEImage :=
  l.filter (fun i => decide (i.cloud < t))

/-- Lines 51-56: the filtered collection, built from the service catalog. -/
def collection (catalog : List EEImage) (s e : Int) (t : ℚ) : List EEImage :=
  filterCloudLt t (filterDate s e (filterBounds catalog))

/-- A date string `str(date)` is parsed by the service as UTC midnight of
that day; dates are encoded monotonically as milliseconds from the ordinal
origin. -/
def dateMs (d : Date) : Int := (toOrdinal d : Int) * 86400000

/-- The comparison under `.sort('system:time_start', False)` (descending):
an image comes before another when its timestamp is at least as large. -/
def newerFirst (a b : EEImage) : Prop := b.ts ≤ a.ts

instance : DecidableRel newerFirst := fun a b =>
  inferInstanceAs (Decidable (b.ts ≤ a.ts))

instance : IsTotal EEImage newerFirst := ⟨fun a b => Int.le_total b.ts a.ts⟩

instance : IsTrans EEImage newerFirst :=
  ⟨fun _ _ _ h1 h2 => Int.le_trans h2 h1⟩

/-- Line 82: `collection.sort('system:time_start', False)` — sort the
collection by acquisition time, newest first. -/
def sortTimeDesc (l : List EEImage) : List EEImage :=
  l.insertionSort newerFirst

/-! ## Band-mode dispatch (lines 79-95) -/

/-- The `vis` dictionary passed to `getMapId`. -/
structure VisParams where
  vmin : Option ℚ
  vmax : Option ℚ
  palette : List String
deriving DecidableEq, Repr

/-- The `image` expression each branch of lines 79-95 builds, as a symbolic
description of the server-side computation: the collection (in order) on
which `.mosaic()` is called, the per-image `normalizedDifference` band pair
applied before the mosaic (NDVI branch), the band selected after the mosaic
(B4/B8 branches), the `.visualize` bands and range (RGB branch), and whether
the result is clipped to the region. -/
structure CompositeSpec where
  fed : List EEImage
  ndBands : Option (String × String)
  selectBand : Option String
  visBands : Option (List String)
  visRange : Option (ℚ × ℚ)
  clipped : Bool
deriving DecidableEq, Repr

/-- The selectbox options of lines 44-48. -/
def bandOptions : List String := ["NDVI", "RGB", "B4（赤）", "B8（近赤外）"]

/-- The if/elif chain of lines 79-95.  `none` models the fall-through case
in which Python leaves `image` and `vis` unassigned (a `NameError` would
follow at line 98). -/
def dispatch (band_option : String) (col : List EEImage) :
    Option (CompositeSpec × VisParams) :=
  if band_option = "NDVI" then
    some ({ fed := sortTimeDesc col, ndBands := some ("B8", "B4"),
            selectBand := none, visBands := none, visRange := none,
            clipped := true },
          { vmin := some (mkRat 1 10), vmax := some (mkRat 7 10),
            palette := ["white", "yellow", "green"] })
  else if band_option = "RGB" then
    some ({ fed := col, ndBands := none, selectBand := none,
            visBands := some ["B4", "B3", "B2"], visRange := some (0, 3000),
            clipped := true },
          { vmin := none, vmax := none, palette := [] })
  else if band_option = "B4（赤）" then
    some ({ fed := col, ndBands := none, selectBand := some "B4",
            visBands := none, visRange := none, clipped := true },
          { vmin := some 0, vmax := some 3000,
            palette := ["black", "white"] })
  else if band_option = "B8（近赤外）" then
    some ({ fed := col, ndBands := none, selectBand := some "B8",
            visBands := none, visRange := none, clipped := true },
          { vmin := some 0, vmax := some 3000,
            palette := ["black", "white"] })
  else none

/-- The order in which the images reach `.mosaic()` under a band mode
(`[]` when no branch assigns an image at all). -/
def mosaicOrder (band_option : String) (col : List EEImage) : List EEImage :=
  match dispatch band_option col with
  | some (spec, _) => spec.fed
  | none => []

/-- Line 111: the legend is attached exactly when the NDVI mode is selected. -/
def legendShown (band_option : String) : Bool := band_option == "NDVI"

/-- Line 83, `img.normalizedDifference` on `B8`, `B4` : Earth Engine
computes `(first − second) / (first + second)` on the two named bands, here
`(B8 − B4)/(B8 + B4)` = (NIR − Red)/(NIR + Red), on one pixel. -/
def normalizedDifference (b8 b4 : ℚ) : ℚ := (b8 - b4) / (b8 + b4)

/-- Rendering a value under a `{min, max, palette}` visualization clamps it
into `[vmin, vmax]` before it is mapped onto the palette ramp, so
out-of-range values draw as the ramp endpoints. -/
def rampClip (vmin vmax v : ℚ) : ℚ := max vmin (min vmax v)

/-! ## The whole script flow -/

/-- Lines 36-37: `start_date = ref_date - timedelta(days=20)`. -/
def start_date (ref_date : Date) : Date := subDays 20 ref_date

/-- Line 37: `end_date = ref_date`. -/
def end_date (ref_date : Date) : Date := ref_date

/-- The sidebar inputs (lines 35, 41, 44-48). -/
structure Inputs where
  ref_date : Date
  cloud_threshold : Nat
  band_option : String
deriving DecidableEq, Repr

/-- Lines 66-76: `date_cloud_list` zips the collection's timestamps and
cloud percentages, in collection order (the string formatting of each entry
is dropped; the pair carries the displayed data). -/
def date_cloud_list (col : List EEImage) : List (Int × ℚ) :=
  col.map (fun i => (i.ts, i.cloud))

/-- Line 62's warning text. -/
def noDataWarning : String := "この期間には雲が少ない画像が見つかりませんでした。"

/-- What one render cycle makes observable. -/
structure Output where
  countShown : Nat
  warned : Bool
  diag : List (Int × ℚ)
  composite : Option (CompositeSpec × VisParams)
  tileRequested : Bool
  layerAdded : Bool
  layerName : String
  legendAdded : Bool
  mapShown : Bool
deriving DecidableEq, Repr

/-- An ISO-like rendering of `ref_date` as interpolated into `layer_id`. -/
def dateStr (d : Date) : String :=
  toString d.year ++ "-" ++ toString d.month ++ "-" ++ toString d.day

/-- One render cycle of the script, from the sidebar inputs and the service
catalog.  `uuid` stands for the `uuid.uuid4()` draw of line 100 (the one
nondeterministic input).  The result is `none` when the cycle dies in an
unhandled exception (band option outside the selectbox values). -/
def runApp (inp : Inputs) (catalog : List EEImage) (uuid : Nat) :
    Option Output :=
  let col := collection catalog (dateMs (start_date inp.ref_date))
      (dateMs (end_date inp.ref_date)) (inp.cloud_threshold : ℚ)
  if col.length = 0 then
    some { countShown := 0, warned := true, diag := [], composite := none,
           tileRequested := false, layerAdded := false, layerName := "",
           legendAdded := false, mapShown := false }
  else
    match dispatch inp.band_option col with
    | none => none
    | some cv =>
        some { countShown := col.length, warned := false,
               diag := date_cloud_list col, composite := some cv,
               tileRequested := true, layerAdded := true,
               layerName := inp.band_option ++ "_" ++ dateStr inp.ref_date
                 ++ "_" ++ toString uuid,
               legendAdded := legendShown inp.band_option, mapShown := true }

/-- The parts of an `Output` a viewer of the rendered page sees: everything
except the internal `layer_id` string (which embeds the uuid draw). -/
def visualOf (o : Output) :
    Nat × Bool × List (Int × ℚ) × Option (CompositeSpec × VisParams) ×
      Bool × Bool × Bool × Bool :=
  (o.countShown, o.warned, o.diag, o.composite, o.tileRequested,
   o.layerAdded, o.legendAdded, o.mapShown)

/-- A catalog of three in-bounds cloud-free images whose timestamps arrive
in the order 1, 3, 2 — sorted neither ascending nor descending. -/
def cexCatalog : List EEImage :=
  [⟨1, 0, true⟩, ⟨3, 0, true⟩, ⟨2, 0, true⟩]

/-- Sample sidebar inputs: the default reference date, threshold and band
mode of the UI. -/
def sampleInputs : Inputs :=
  { ref_date := ⟨2025, 7, 3⟩, cloud_threshold := 40, band_option := "NDVI" }

/-- A one-image catalog whose image passes all three filters for
`sampleInputs`. -/
def sampleCatalog : List EEImage :=
  [{ ts := dateMs ⟨2025, 7, 2⟩, cloud := 5, inBounds := true }]

/-- The output of the render cycle on `sampleInputs` / `sampleCatalog` with
uuid draw 0. -/
def sampleOut : Output :=
  { countShown := 1, warned := false,
    diag := [(dateMs ⟨2025, 7, 2⟩, 5)],
    composite := some
      ({ fed := sampleCatalog, ndBands := some ("B8", "B4"),
         selectBand := none, visBands := none, visRange := none,
         clipped := true },
       { vmin := some (mkRat 1 10), vmax := some (mkRat 7 10),
         palette := ["white", "yellow", "green"] }),
    tileRequested := true, layerAdded := true,
    layerName := "NDVI_2025-7-3_0",
    legendAdded := true, mapShown := true }

/-! ## Calendar lemmas -/

theorem daysInMonth_pos (y m : Nat) (h1 : 1 ≤ m) (h12 : m ≤ 12) :
    1 ≤ daysInMonth y m := by
  interval_cases m <;> simp [daysInMonth]
  split <;> omega

theorem daysBeforeMonth_succ (y k : Nat) :
    daysBeforeMonth y (k + 2) = daysBeforeMonth y (k + 1) + daysInMonth y (k + 1) :=
  rfl

theorem daysBeforeMonth_12 (y : Nat) :
    daysBeforeMonth y 12 = if isLeap y then 335 else 334 := by
  by_cases h : isLeap y <;>
    simp [show (12 : Nat) = 10 + 2 from rfl, daysBeforeMonth, daysInMonth, h]

theorem daysBeforeYear_succ (w : Nat) :
    daysBeforeYear (w + 2) =
      daysBeforeYear (w + 1) + (if isLeap (w + 1) then 366 else 365) := by
  unfold daysBeforeYear
  rw [show w + 2 - 1 = w + 1 from rfl, show w + 1 - 1 = w from rfl]
  by_cases hL : isLeap (w + 1) = true
  · rw [if_pos hL]
    simp only [isLeap, Bool.or_eq_true, Bool.and_eq_true, beq_iff_eq,
      bne_iff_ne, ne_eq] at hL
    rcases hL with ⟨h1, h2⟩ | h1 <;> omega
  · rw [if_neg hL]
    simp only [isLeap, Bool.or_eq_true, Bool.and_eq_true, beq_iff_eq,
      bne_iff_ne, ne_eq, not_or, not_and, not_not] at hL
    obtain ⟨himp, h400⟩ := hL
    by_cases h4 : (w + 1) % 4 = 0
    · have h100 := himp h4
      omega
    · have hdiv : (w + 1) / 4 = w / 4 ∧ (w + 1) / 100 = w / 100 ∧
        (w + 1) / 400 = w / 400 := by omega
      obtain ⟨e1, e2, e3⟩ := hdiv
      rw [e1, e2, e3]
      have hle : w / 100 ≤ 365 * w + w / 4 + w / 400 :=
        le_trans (le_trans (Nat.div_le_self w 100)
          (Nat.le_mul_of_pos_left w (by norm_num)))
          (le_trans (Nat.le_add_right _ _) (Nat.le_add_right _ _))
      rw [← Nat.sub_add_comm hle]
      congr 1
      ring

theorem toOrdinal_predDay (d : Date) (hv : ValidDate d)
    (h2 : 2 ≤ toOrdinal d) :
    ValidDate (predDay d) ∧ toOrdinal (predDay d) = toOrdinal d - 1 := by
  obtain ⟨hy, hm1, hm12, hd1, hdm⟩ := hv
  by_cases hday : 2 ≤ d.day
  · rw [predDay, if_pos hday]
    refine ⟨⟨hy, hm1, hm12, by show 1 ≤ d.day - 1; omega,
      by show d.day - 1 ≤ daysInMonth d.year d.month; omega⟩, ?_⟩
    show daysBeforeYear d.year + daysBeforeMonth d.year d.month + (d.day - 1) =
      toOrdinal d - 1
    simp only [toOrdinal]
    omega
  · by_cases hmon : 2 ≤ d.month
    · rw [predDay, if_neg hday, if_pos hmon]
      obtain ⟨k, hk⟩ : ∃ k, d.month = k + 2 := ⟨d.month - 2, by omega⟩
      have hpos : 1 ≤ daysInMonth d.year (d.month - 1) :=
        daysInMonth_pos d.year (d.month - 1) (by omega) (by omega)
      refine ⟨⟨hy, by simp; omega, by simp; omega, by simpa using hpos,
        by simp⟩, ?_⟩
      have hbm := daysBeforeMonth_succ d.year k
      simp only [toOrdinal, hk]
      rw [show k + 2 - 1 = k + 1 from rfl]
      omega
    · have hm : d.month = 1 := by omega
      have hd : d.day = 1 := by omega
      have hbm1 : daysBeforeMonth d.year 1 = 0 := rfl
      have hord : toOrdinal d = daysBeforeYear d.year + 1 := by
        simp [toOrdinal, hm, hd, hbm1]
      have hy2 : 2 ≤ d.year := by
        by_contra hlt
        have : d.year = 1 := by omega
        rw [this] at hord
        have : daysBeforeYear 1 = 0 := by decide
        omega
      obtain ⟨w, hw⟩ : ∃ w, d.year = w + 2 := ⟨d.year - 2, by omega⟩
      rw [predDay, if_neg hday, if_neg hmon]
      refine ⟨⟨by simp; omega, by simp, by simp, by simp, by simp [daysInMonth]⟩, ?_⟩
      have h12 := daysBeforeMonth_12 (d.year - 1)
      have hys := daysBeforeYear_succ w
      simp only [toOrdinal, hw] at *
      rw [show w + 2 - 1 = w + 1 from rfl] at *
      split_ifs at h12 hys <;> omega

theorem toOrdinal_subDays (n : Nat) (d : Date) (hv : ValidDate d) :
    n + 1 ≤ toOrdinal d →
      ValidDate (subDays n d) ∧ toOrdinal (subDays n d) = toOrdinal d - n := by
  induction n with
  | zero =>
      intro _
      simpa [subDays] using hv
  | succ k ih =>
      intro h
      have hk := ih (by omega)
      have hstep := toOrdinal_predDay (subDays k d) hk.1 (by omega)
      rw [subDays, Function.iterate_succ_apply'] at *
      exact ⟨hstep.1, by rw [hstep.2]; omega⟩

/-! ## Claim theorems -/

/-- C3: for every valid reference date `D` (whose ordinal leaves room for the
lookback), the derived window is exactly `[D − 20 days, D]`: the start is a
valid date lying exactly 20 days before `D`, the end is `D` itself, the width
is exactly 20 days and end ≥ start — across month and year rollovers, since
`Date` is the full Gregorian calendar. -/
theorem time_window_exact (D : Date) (hv : ValidDate D)
    (h : 21 ≤ toOrdinal D) :
    ValidDate (start_date D) ∧
    toOrdinal (start_date D) = toOrdinal D - 20 ∧
    end_date D = D ∧
    toOrdinal (end_date D) - toOrdinal (start_date D) = 20 ∧
    toOrdinal (start_date D) ≤ toOrdinal (end_date D) := by
  have hs := toOrdinal_subDays 20 D hv (by omega)
  have h2 := hs.2
  exact ⟨hs.1, hs.2, rfl,
    by show toOrdinal D - toOrdinal (subDays 20 D) = 20; omega,
    by show toOrdinal (subDays 20 D) ≤ toOrdinal D; omega⟩

/-- Witness for C3 at the spec's scenario date 2025-07-03; the computed
window start is 2025-06-13, crossing a month boundary. -/
theorem time_window_exact_witness :
    ValidDate ⟨2025, 7, 3⟩ ∧ 21 ≤ toOrdinal ⟨2025, 7, 3⟩ ∧
      (ValidDate (start_date ⟨2025, 7, 3⟩) ∧
        toOrdinal (start_date ⟨2025, 7, 3⟩) = toOrdinal ⟨2025, 7, 3⟩ - 20 ∧
        end_date ⟨2025, 7, 3⟩ = ⟨2025, 7, 3⟩ ∧
        toOrdinal (end_date ⟨2025, 7, 3⟩) - toOrdinal (start_date ⟨2025, 7, 3⟩) = 20 ∧
        toOrdinal (start_date ⟨2025, 7, 3⟩) ≤ toOrdinal (end_date ⟨2025, 7, 3⟩)) ∧
      start_date ⟨2025, 7, 3⟩ = ⟨2025, 6, 13⟩ :=
  ⟨by decide, by decide,
    time_window_exact ⟨2025, 7, 3⟩ (by decide) (by decide), by decide⟩

/-- C2: when the filtered collection is empty, the render cycle emits the
warning and halts: the image count reads 0 and no diagnostics, no composite,
no tile-handle request, no tile layer, no legend and no map are produced. -/
theorem empty_set_halts (inp : Inputs) (catalog : List EEImage) (uuid : Nat)
    (h : collection catalog (dateMs (start_date inp.ref_date))
      (dateMs (end_date inp.ref_date)) (inp.cloud_threshold : ℚ) = []) :
    runApp inp catalog uuid =
      some { countShown := 0, warned := true, diag := [], composite := none,
             tileRequested := false, layerAdded := false, layerName := "",
             legendAdded := false, mapShown := false } := by
  simp [runApp, h]

/-- Witness for C2: the empty catalog yields an empty collection and the
warning-only output. -/
theorem empty_set_halts_witness :
    collection [] (dateMs (start_date sampleInputs.ref_date))
        (dateMs (end_date sampleInputs.ref_date))
        (sampleInputs.cloud_threshold : ℚ) = [] ∧
      runApp sampleInputs [] 0 =
        some { countShown := 0, warned := true, diag := [], composite := none,
               tileRequested := false, layerAdded := false, layerName := "",
               legendAdded := false, mapShown := false } :=
  ⟨rfl, empty_set_halts sampleInputs [] 0 rfl⟩

/-- C4: membership in the filtered collection requires cloud percentage
strictly below the threshold; an image whose cloud percentage equals the
threshold is excluded, and with threshold 0 a (nonnegative-cloud) image is
never admitted. -/
theorem cloud_threshold_strict (catalog : List EEImage) (s e : Int) (t : ℚ)
    (img : EEImage) (h0 : 0 ≤ img.cloud) :
    (img ∈ collection catalog s e t → img.cloud < t) ∧
    (img.cloud = t → img ∉ collection catalog s e t) ∧
    img ∉ collection catalog s e 0 := by
  have key : ∀ u : ℚ, img ∈ collection catalog s e u → img.cloud < u := by
    intro u hm
    simp only [collection, filterCloudLt, List.mem_filter,
      decide_eq_true_eq] at hm
    exact hm.2
  refine ⟨key t, fun heq hm => ?_, fun hm => ?_⟩
  · exact absurd (key t hm) (by rw [heq]; exact lt_irrefl t)
  · exact absurd (key 0 hm) (not_lt.mpr h0)

/-- Witness for C4 at a concrete image with cloud percentage 5. -/
theorem cloud_threshold_strict_witness :
    (0:ℚ) ≤ (⟨0, 5, true⟩ : EEImage).cloud ∧
      ((⟨0, 5, true⟩ : EEImage) ∈ collection [⟨0, 5, true⟩] 0 1 40 →
        (⟨0, 5, true⟩ : EEImage).cloud < 40) ∧
      ((⟨0, 5, true⟩ : EEImage).cloud = 40 →
        (⟨0, 5, true⟩ : EEImage) ∉ collection [⟨0, 5, true⟩] 0 1 40) ∧
      (⟨0, 5, true⟩ : EEImage) ∉ collection [⟨0, 5, true⟩] 0 1 0 :=
  ⟨by decide, cloud_threshold_strict [⟨0, 5, true⟩] 0 1 40 ⟨0, 5, true⟩ (by decide)⟩

/-- C1 counterexample: with band mode `"RGB"` (a selectbox value) and a
non-empty collection arriving in timestamp order 1, 3, 2, the list fed to
`.mosaic()` is exactly the unsorted collection: it is sorted neither
newest-first nor oldest-first, so no ordering gives the newest image
priority — the claim's "for every Band Mode" fails (only the NDVI branch
sorts). -/
theorem mosaic_unordered_cex :
    "RGB" ∈ bandOptions ∧
    collection cexCatalog 0 10 1 ≠ [] ∧
    mosaicOrder "RGB" (collection cexCatalog 0 10 1) = cexCatalog ∧
    ¬ List.Sorted newerFirst (mosaicOrder "RGB" (collection cexCatalog 0 10 1)) ∧
    ¬ List.Sorted (fun a b : EEImage => a.ts ≤ b.ts)
      (mosaicOrder "RGB" (collection cexCatalog 0 10 1)) := by
  refine ⟨by decide, by decide, by decide, ?_, ?_⟩ <;> decide

/-- C1 amended: only the NDVI branch orders the collection before
`.mosaic()` (descending by acquisition time, newest first); the RGB, B4 and
B8 branches feed the collection through in its original service order, with
no sort applied. -/
theorem mosaic_order_by_mode (col : List EEImage) :
    List.Sorted newerFirst (mosaicOrder "NDVI" col) ∧
    mosaicOrder "NDVI" col = sortTimeDesc col ∧
    mosaicOrder "RGB" col = col ∧
    mosaicOrder "B4（赤）" col = col ∧
    mosaicOrder "B8（近赤外）" col = col := by
  refine ⟨?_, ?_, ?_, ?_, ?_⟩
  · have hs := List.sorted_insertionSort newerFirst col
    simpa [mosaicOrder, dispatch, sortTimeDesc] using hs
  · simp [mosaicOrder, dispatch]
  · simp [mosaicOrder, dispatch]
  · simp [mosaicOrder, dispatch]
  · simp [mosaicOrder, dispatch]

/-- C5 counterexample: for a reachable collection whose images arrive with
timestamps 1, 3, 2, the sidebar's `date_cloud_list` carries the timestamps
in that same order — sorted neither ascending nor descending by acquisition
time, since lines 66-76 apply no sort. -/
theorem diag_list_unsorted_cex :
    collection cexCatalog 0 10 1 = cexCatalog ∧
    (date_cloud_list (collection cexCatalog 0 10 1)).map Prod.fst =
      [1, 3, 2] ∧
    ¬ List.Sorted (· ≤ ·)
      ((date_cloud_list (collection cexCatalog 0 10 1)).map Prod.fst) ∧
    ¬ List.Sorted (· ≥ ·)
      ((date_cloud_list (collection cexCatalog 0 10 1)).map Prod.fst) := by
  refine ⟨by decide, by decide, ?_, ?_⟩ <;> decide

/-- C5 amended: the diagnostic list preserves the filtered collection's
order exactly — entry `i` is the timestamp/cloud pair of image `i` of the
collection — and the collection itself is an order-preserving sub-sequence
of the service catalog; the program never sorts either. -/
theorem diag_list_order (col catalog : List EEImage) (s e : Int) (t : ℚ) :
    (date_cloud_list col).map Prod.fst = col.map (fun i => i.ts) ∧
    (date_cloud_list col).map Prod.snd = col.map (fun i => i.cloud) ∧
    List.Sublist (collection catalog s e t) catalog := by
  refine ⟨?_, ?_, ?_⟩
  · simp [date_cloud_list]
  · simp [date_cloud_list]
  · exact (List.filter_sublist _).trans
      ((List.filter_sublist _).trans (List.filter_sublist _))

/-- C6: in a render cycle that reaches the map step, the legend overlay is
added if and only if the selected band mode is NDVI. -/
theorem legend_iff_ndvi (inp : Inputs) (catalog : List EEImage) (uuid : Nat)
    (out : Output) (hrun : runApp inp catalog uuid = some out)
    (hmap : out.mapShown = true) :
    (out.legendAdded = true ↔ inp.band_option = "NDVI") := by
  simp only [runApp] at hrun
  split at hrun
  · rw [Option.some.injEq] at hrun
    rw [← hrun] at hmap
    simp at hmap
  · split at hrun
    · exact absurd hrun (by simp)
    · rw [Option.some.injEq] at hrun
      subst hrun
      simp [legendShown]

/-- Witness for C6: a concrete NDVI run that reaches the map step and shows
the legend. -/
theorem legend_iff_ndvi_witness :
    runApp sampleInputs sampleCatalog 0 = some sampleOut ∧
      sampleOut.mapShown = true ∧
      (sampleOut.legendAdded = true ↔ sampleInputs.band_option = "NDVI") :=
  ⟨by decide, by decide,
    legend_iff_ndvi sampleInputs sampleCatalog 0 sampleOut (by decide) (by decide)⟩

/-- C7: per-pixel NDVI is the normalized difference of B8 (NIR) and B4
(Red); for nonnegative reflectances with positive sum it lies in [-1, 1],
and values outside the visualization range [0.1, 0.7] still compute and
render clipped to the ramp endpoints. -/
theorem ndvi_range (b8 b4 : ℚ) (h8 : 0 ≤ b8) (h4 : 0 ≤ b4)
    (hpos : 0 < b8 + b4) :
    normalizedDifference b8 b4 = (b8 - b4) / (b8 + b4) ∧
    -1 ≤ normalizedDifference b8 b4 ∧ normalizedDifference b8 b4 ≤ 1 ∧
    (normalizedDifference b8 b4 ≤ 1/10 →
      rampClip (1/10) (7/10) (normalizedDifference b8 b4) = 1/10) ∧
    (7/10 ≤ normalizedDifference b8 b4 →
      rampClip (1/10) (7/10) (normalizedDifference b8 b4) = 7/10) := by
  have hle : normalizedDifference b8 b4 ≤ 1 := by
    rw [normalizedDifference, div_le_one hpos]; linarith
  have hge : -1 ≤ normalizedDifference b8 b4 := by
    rw [normalizedDifference, le_div_iff₀ hpos]; linarith
  refine ⟨rfl, hge, hle, fun h => ?_, fun h => ?_⟩
  · rw [rampClip, min_eq_right (le_trans h (by norm_num)), max_eq_left h]
  · rw [rampClip, min_eq_left h, max_eq_right (by norm_num)]

/-- Witness for C7 at B8 = 0, B4 = 1: the NDVI value is −1, inside [-1,1]
and clipped to the low ramp endpoint. -/
theorem ndvi_range_witness :
    ((0:ℚ) ≤ 0) ∧ ((0:ℚ) ≤ 1) ∧ ((0:ℚ) < 0 + 1) ∧
      (normalizedDifference 0 1 = (0 - 1) / (0 + 1) ∧
        -1 ≤ normalizedDifference 0 1 ∧ normalizedDifference 0 1 ≤ 1 ∧
        (normalizedDifference 0 1 ≤ 1/10 →
          rampClip (1/10) (7/10) (normalizedDifference 0 1) = 1/10) ∧
        (7/10 ≤ normalizedDifference 0 1 →
          rampClip (1/10) (7/10) (normalizedDifference 0 1) = 7/10)) :=
  ⟨by norm_num, by norm_num, by norm_num,
    ndvi_range 0 1 (by norm_num) (by norm_num) (by norm_num)⟩

/-- C8: the RGB branch visualizes the mosaic with exactly the bands
B4, B3, B2 stretched over [0, 3000], clipped to the region, without a
per-image transform or band selection, and no legend is shown. -/
theorem rgb_vis_spec (col : List EEImage) :
    dispatch "RGB" col =
      some ({ fed := col, ndBands := none, selectBand := none,
              visBands := some ["B4", "B3", "B2"],
              visRange := some (0, 3000), clipped := true },
            { vmin := none, vmax := none, palette := [] }) ∧
    legendShown "RGB" = false :=
  ⟨by simp [dispatch], by decide⟩

/-- C9: for fixed inputs and a fixed (deterministic) service catalog, two
render cycles differing only in the uuid draw select the same image set and
produce the same visual output — the uuid reaches only the internal layer
name. -/
theorem run_deterministic (inp : Inputs) (catalog : List EEImage)
    (u1 u2 : Nat) :
    (runApp inp catalog u1).map visualOf =
      (runApp inp catalog u2).map visualOf := by
  simp only [runApp]
  split
  · rfl
  · split <;> rfl

/-- C10: every selectable band-mode string hits exactly one branch of the
if/elif chain (the chain's guards are exactly the four option literals), so
`image` and `vis` are always assigned before the tile request. -/
theorem dispatch_exhaustive (s : String) (hs : s ∈ bandOptions)
    (col : List EEImage) :
    (dispatch s col).isSome = true ∧ List.count s bandOptions = 1 := by
  fin_cases hs <;> exact ⟨by simp [dispatch], by decide⟩

/-- Witness for C10 at the `"RGB"` option. -/
theorem dispatch_exhaustive_witness :
    "RGB" ∈ bandOptions ∧
      ((dispatch "RGB" []).isSome = true ∧ List.count "RGB" bandOptions = 1) :=
  ⟨by decide, dispatch_exhaustive "RGB" (by decide) []⟩

end NDVIViewer
